import Mathlib

/-!
Verification of the streaming-session and playback-negotiation subsystem of
the Jellyfin-Resonite API bridge.

The definitions below are a shallow embedding of the relevant route handlers
and middleware:

* `negotiate` embeds the playback-method decision and URL construction of
  `GET /api/stream/:itemId` (src/handling/routes/streams.js, lines 66-139).
* `buildMetadataResponse` embeds the metadata JSON response of the same route
  (lines 218-287), restricted to the fields the claims are about.
* `subtitleDownloadUrl` embeds the subtitle `downloadUrl` construction
  (lines 259-269).
* `startDirectStream`, `pipeChunks`, `onRequestClose` and `runDirectProxy`
  embed the `format=direct` proxy branch (lines 148-216): session
  registration, the `pipe` of the upstream body, and the `req.on('close')`
  cleanup handler.
* `buildDirectUpstreamGet` and `mkDirectRespHeaders` embed the upstream
  request options and the `res.set` header object of that branch
  (lines 178-193).
* `sweepStale` embeds the stale-stream cleanup loop (src/unnamed/part_002
  lines 49-62 and src/server.js lines 484-490).
* `reportProgress` embeds `POST /api/stream/:itemId/progress`
  (src/handling/routes/streams.js lines 347-392).
* `authInvoke`/`authInvokeMany` embed the promise-based single-flight
  `authenticate` variant (lines 666-711); `busyInitiate`/`busyWaiterResult`
  embed the busy-wait `authenticate` variant (lines 503-545).

Query parameters arrive as strings in Express, so the caller-supplied
width/height/bitrate values are modelled as strings.  URL query strings are
modelled structurally as association lists of key-value pairs (the order is
the `URLSearchParams` insertion order of the source).
-/

namespace JellyfinResonite

/-- Shared credential state: the fields of `authData` read by the stream
route (`auth.userId`, `auth.token`). -/
structure AuthData where
  userId : String
  token : String
deriving DecidableEq

/-- The fields of the first `MediaSources` descriptor consumed by the route:
`SupportsDirectPlay`, `SupportsDirectStream`, `SupportsTranscoding`,
`TranscodingInfo?.TranscodeReasons` (absent when `TranscodingInfo` or its
`TranscodeReasons` is undefined) and `Id`. -/
structure MediaSource where
  supportsDirectPlay : Bool
  supportsDirectStream : Bool
  supportsTranscoding : Bool
  transcodeReasonsInfo : Option (List String)
  id : String
deriving DecidableEq

/-- The query parameters destructured at the top of the route handler.
Express delivers them as strings; the destructuring defaults are
`defaultQuery` below. -/
structure StreamQuery where
  maxWidth : String
  maxHeight : String
  videoBitrate : String
  audioCodec : String
  videoCodec : String
  container : String
  audioChannels : String
  quality : String
deriving DecidableEq

/-- The destructuring defaults of the route handler: maxWidth 1920,
maxHeight 1080, videoBitrate 5000000, audioCodec aac, videoCodec h264,
container ts, audioChannels 2, quality auto. -/
def defaultQuery : StreamQuery :=
  ⟨"1920", "1080", "5000000", "aac", "h264", "ts", "2", "auto"⟩

/-- The three playback methods the route can settle on. -/
inductive PlayMethod
  | directPlay
  | remux
  | transcode
deriving DecidableEq

/-- A constructed URL: server base, path, and the query parameters in
`URLSearchParams` insertion order. -/
structure UrlQ where
  base : String
  path : String
  params : List (String × String)
deriving DecidableEq

/-- The `baseParams` object of the route: UserId, DeviceId and api_key
(the shared upstream access token). -/
def baseParams (auth : AuthData) : List (String × String) :=
  [("UserId", auth.userId), ("DeviceId", "jellyfin-resonite-api"),
   ("api_key", auth.token)]

/-- The quality-preset `switch` of the transcode branch: `low`, `medium` and
`high` overwrite MaxWidth/MaxHeight/VideoBitrate; every other value (the
`default` of the switch, which includes `auto`) keeps the caller-supplied
values. -/
def presetFor (quality mw mh vb : String) : String × String × String :=
  if quality = "low" then ("720", "480", "1000000")
  else if quality = "medium" then ("1280", "720", "2500000")
  else if quality = "high" then ("1920", "1080", "8000000")
  else (mw, mh, vb)

/-- What the method decision produces: the chosen method, the three URLs
(`streamUrl`, `hlsUrl`, `directUrl`), the `isDirectPlay` flag, the
`transcodeReasons` list, and the `transcodeParams` object (present only in
the transcode branch). -/
structure NegotiationResult where
  method : PlayMethod
  streamUrl : UrlQ
  hlsUrl : UrlQ
  directUrl : UrlQ
  isDirectPlay : Bool
  transcodeReasons : List String
  transcodeParams : Option (List (String × String))
deriving DecidableEq

/-- The method decision and URL construction of the stream route
(src/handling/routes/streams.js lines 66-139):

* direct play when `mediaSource.SupportsDirectPlay && quality === 'auto'`,
  with params `baseParams ++ [Static=true]` and empty reasons;
* otherwise remux when `mediaSource.SupportsDirectStream`, with params
  `baseParams ++ [Container]` and reasons `['Container remux']`;
* otherwise transcode, with the full parameter object (preset-adjusted by
  `presetFor`) and reasons `TranscodingInfo?.TranscodeReasons` defaulting to
  `['Full transcode required']`.

In the first two branches `streamUrl = directUrl`; in the transcode branch
`streamUrl = hlsUrl`. -/
def negotiate (server itemId : String) (auth : AuthData) (q : StreamQuery)
    (ms : MediaSource) : NegotiationResult :=
  if ms.supportsDirectPlay = true ∧ q.quality = "auto" then
    let ps := baseParams auth ++ [("Static", "true")]
    let d : UrlQ := ⟨server, "/Videos/" ++ itemId ++ "/stream", ps⟩
    let h : UrlQ := ⟨server, "/Videos/" ++ itemId ++ "/master.m3u8", ps⟩
    ⟨.directPlay, d, h, d, true, [], none⟩
  else if ms.supportsDirectStream = true then
    let ps := baseParams auth ++ [("Container", q.container)]
    let d : UrlQ := ⟨server, "/Videos/" ++ itemId ++ "/stream", ps⟩
    let h : UrlQ := ⟨server, "/Videos/" ++ itemId ++ "/master.m3u8", ps⟩
    ⟨.remux, d, h, d, false, ["Container remux"], none⟩
  else
    let pre := presetFor q.quality q.maxWidth q.maxHeight q.videoBitrate
    let ps := baseParams auth ++
      [("VideoCodec", q.videoCodec), ("AudioCodec", q.audioCodec),
       ("Container", q.container), ("MaxWidth", pre.1), ("MaxHeight", pre.2.1),
       ("VideoBitrate", pre.2.2), ("AudioChannels", q.audioChannels)]
    let d : UrlQ := ⟨server, "/Videos/" ++ itemId ++ "/stream", ps⟩
    let h : UrlQ := ⟨server, "/Videos/" ++ itemId ++ "/master.m3u8", ps⟩
    ⟨.transcode, h, h, d, false,
     ms.transcodeReasonsInfo.getD ["Full transcode required"], some ps⟩

/-- The fields of the metadata JSON response the claims are about: the three
URLs and reasons from the negotiation, `mediaSource.id`, and the
`playbackInfo` block (`playSessionId` from upstream's `PlaybackInfo`
response, `userId`, `itemId`). -/
structure MetadataResponse where
  streamUrl : UrlQ
  hlsUrl : UrlQ
  directUrl : UrlQ
  directPlay : Bool
  transcodeReasons : List String
  mediaSourceId : String
  playSessionId : String
  responseUserId : String
  responseItemId : String
deriving DecidableEq

/-- The default metadata response of the stream route (lines 218-287),
restricted to the fields above. -/
def buildMetadataResponse (server itemId : String) (auth : AuthData)
    (q : StreamQuery) (ms : MediaSource) (playSessionId : String) :
    MetadataResponse :=
  let r := negotiate server itemId auth q ms
  ⟨r.streamUrl, r.hlsUrl, r.directUrl, r.isDirectPlay, r.transcodeReasons,
   ms.id, playSessionId, auth.userId, itemId⟩

/-- A subtitle stream as consumed by the response builder: `Index`, `Codec`
and the optional `DeliveryUrl`. -/
structure SubtitleStream where
  index : String
  codec : String
  deliveryUrl : Option String
deriving DecidableEq

/-- The subtitle `downloadUrl` of the metadata response (lines 266-268):
upstream's `DeliveryUrl` when present, otherwise the fallback
`/Videos/{itemId}/{mediaSourceId}/Subtitles/{index}/Stream.{codec}?api_key={token}`. -/
def subtitleDownloadUrl (server itemId msId : String) (auth : AuthData)
    (sub : SubtitleStream) : String :=
  match sub.deliveryUrl with
  | some d => server ++ d
  | none =>
      server ++ "/Videos/" ++ itemId ++ "/" ++ msId ++ "/Subtitles/" ++
        sub.index ++ "/Stream." ++ sub.codec ++ "?api_key=" ++ auth.token

/-- The session record stored in `serverStats.activeStreams` by the
`format=direct` branch (lines 154-164).  It carries no byte counter. -/
structure StreamInfo where
  itemId : String
  itemName : String
  startTime : Int
  quality : String
  bitrate : Int
  userAgent : String
  clientIP : String
  isDirectPlay : Bool
  transcodeReasons : List String
deriving DecidableEq

/-- A JS `Map` keyed by session id, in insertion order. -/
abbrev StreamTable : Type := List (String × StreamInfo)

/-- JS `Map.prototype.set`: replace in place when the key exists, otherwise
append. -/
def mapSet (m : StreamTable) (k : String) (v : StreamInfo) : StreamTable :=
  if m.any (fun e => e.1 == k) then
    m.map (fun e => if e.1 == k then (k, v) else e)
  else
    m ++ [(k, v)]

/-- JS `Map.prototype.delete`: drop every entry with the key. -/
def mapDelete (m : StreamTable) (k : String) : StreamTable :=
  m.filter (fun e => e.1 != k)

/-- JS `Map.prototype.has`. -/
def mapHas (m : StreamTable) (k : String) : Bool :=
  m.any (fun e => e.1 == k)

/-- The shared `serverStats` object, restricted to the fields the streaming
claims are about: `streamCount`, `activeStreams` and `totalBandwidth`. -/
structure ServerStats where
  streamCount : Nat
  activeStreams : StreamTable
  totalBandwidth : Nat
deriving DecidableEq

/-- Session registration at the start of the `format=direct` branch
(lines 173-174): `streamCount++` and `activeStreams.set(sessionId, info)`. -/
def startDirectStream (s : ServerStats) (sid : String) (info : StreamInfo) :
    ServerStats :=
  { s with
    streamCount := s.streamCount + 1
    activeStreams := mapSet s.activeStreams sid info }

/-- The body forwarding of the branch, `streamResponse.data.pipe(res)`
(line 205): each upstream chunk is written to the client in receipt order.
No handler on the piped stream touches `serverStats`, so the stats are
returned unchanged. -/
def pipeChunks (s : ServerStats) (client : List Nat) (chunks : List Nat) :
    ServerStats × List Nat :=
  (s, client ++ chunks)

/-- The `req.on('close', ...)` handler (lines 196-202): when the session id
is still present, delete it from `activeStreams`. -/
def onRequestClose (s : ServerStats) (sid : String) : ServerStats :=
  if mapHas s.activeStreams sid then
    { s with activeStreams := mapDelete s.activeStreams sid }
  else
    s

/-- One full run of the `format=direct` branch: register the session, pipe
the upstream chunks, then fire the close handler when the client connection
ends.  Returns the final stats and the bytes-per-chunk list the client
received. -/
def runDirectProxy (s : ServerStats) (sid : String) (info : StreamInfo)
    (chunks : List Nat) : ServerStats × List Nat :=
  let s1 := startDirectStream s sid info
  let (s2, out) := pipeChunks s1 [] chunks
  (onRequestClose s2 sid, out)

/-- The axios request options of the `format=direct` upstream GET
(lines 179-182): `responseType: 'stream'`, `timeout: 30000`, and no request
headers (in particular the caller's Range header is not forwarded). -/
structure UpstreamGet where
  path : String
  responseType : String
  timeout : Option Nat
  headers : List (String × String)
deriving DecidableEq

/-- Construction of the upstream GET of the `format=direct` branch.  The
handler receives the caller's Range header (when present) but never reads
it, which is why `rangeHeader` does not occur in the result. -/
def buildDirectUpstreamGet (strippedUrl : String)
    (rangeHeader : Option String) : UpstreamGet :=
  { path := strippedUrl
    responseType := "stream"
    timeout := some 30000
    headers := [] }

/-- The `res.set` header object of the `format=direct` branch
(lines 185-193). -/
structure DirectRespHeaders where
  contentType : String
  contentLength : Option String
  acceptRanges : String
  cacheControl : String
  accessControlAllowOrigin : String
  accessControlAllowHeaders : String
  accessControlExposeHeaders : String
deriving DecidableEq

/-- The response headers set before piping: Content-Type relayed from
upstream with fallback `video/mp4`, Content-Length relayed, plus the fixed
Accept-Ranges/caching/CORS headers. -/
def mkDirectRespHeaders (upstreamContentType upstreamContentLength :
    Option String) : DirectRespHeaders :=
  { contentType := upstreamContentType.getD "video/mp4"
    contentLength := upstreamContentLength
    acceptRanges := "bytes"
    cacheControl := "public, max-age=3600"
    accessControlAllowOrigin := "*"
    accessControlAllowHeaders := "Range"
    accessControlExposeHeaders := "Content-Length, Content-Range" }

/-- The staleness test of the cleanup loops: `info.startTime < now - maxAge`
(with `maxAge = 3600000` ms in both call sites). -/
def isStale (now maxAge : Int) (info : StreamInfo) : Bool :=
  info.startTime < now - maxAge

/-- The stale-stream sweep (src/unnamed/part_002 lines 49-62 and
src/server.js lines 484-490): iterate over `activeStreams` and delete every
record whose `startTime` is older than `now - maxAge`. -/
def sweepStale (now maxAge : Int) (t : StreamTable) : StreamTable :=
  t.filter (fun e => !isStale now maxAge e.2)

/-- JS `Math.round`: round half toward positive infinity. -/
def jsRound (x : ℚ) : Int := ⌊x + 1 / 2⌋

/-- What the progress route produced, as far as the claims are concerned:
the HTTP status, the `PositionTicks` value forwarded upstream (`none` when
no upstream call was made), and the `success` field of the JSON body
(`none` for the 400 error body, which has no such field). -/
structure ProgressResult where
  status : Nat
  upstreamTicks : Option Int
  success : Option Bool
deriving DecidableEq

/-- The progress route `POST /api/stream/:itemId/progress` (lines 347-392).
`position` is `none` when the body's position is not a number (the
`typeof position !== 'number'` test); a negative position is rejected the
same way.  A valid position is converted with `Math.round(position *
10000000)` and forwarded; when the upstream call errors the route still
answers 200 with `success: false`. -/
def reportProgress (position : Option ℚ) (upstreamOk : Bool) :
    ProgressResult :=
  match position with
  | none => ⟨400, none, none⟩
  | some p =>
      if p < 0 then ⟨400, none, none⟩
      else if upstreamOk then
        ⟨200, some (jsRound (p * 10000000)), some true⟩
      else
        ⟨200, some (jsRound (p * 10000000)), some false⟩

/-- State of the promise-based `authenticate` variant (lines 666-711):
the outstanding `authPromise` (identified by a promise id), the number of
upstream authentication HTTP calls started so far, and a fresh-id counter. -/
structure AuthFlight where
  authPromise : Option Nat
  upstreamCalls : Nat
  nextId : Nat
deriving DecidableEq

/-- One call to the promise-based `authenticate`.  The whole synchronous
prefix — the `if (authPromise) return authPromise` check, the start of the
upstream HTTP call inside the async closure, and the assignment
`authPromise = ...` — runs without a suspension point, so on the
single-threaded event loop it is one atomic step.  A caller that finds an
outstanding promise returns it unchanged; otherwise a new attempt is
created and exactly one upstream call is started. -/
def authInvoke (s : AuthFlight) : AuthFlight × Nat :=
  match s.authPromise with
  | some p => (s, p)
  | none =>
      ({ authPromise := some s.nextId
         upstreamCalls := s.upstreamCalls + 1
         nextId := s.nextId + 1 }, s.nextId)

/-- `n` further callers invoking `authenticate`, one event-loop step each,
with no settlement of the outstanding attempt in between.  Returns the final
state and the promise each caller received. -/
def authInvokeMany (s : AuthFlight) : Nat → AuthFlight × List Nat
  | 0 => (s, [])
  | n + 1 =>
      let (s1, p) := authInvoke s
      let (s2, ps) := authInvokeMany s1 n
      (s2, p :: ps)

/-- The `finally { authPromise = null }` of the promise-based variant: the
attempt settles and the slot is cleared. -/
def authSettle (s : AuthFlight) : AuthFlight :=
  { s with authPromise := none }

/-- The credential fields of the busy-wait `authenticate` variant
(lines 503-545) that decide what callers receive. -/
structure BusyAuthState where
  token : Option String
  isAuthenticating : Bool
deriving DecidableEq

/-- Outcome of the single outstanding upstream authentication attempt. -/
inductive AuthOutcome
  | ok (token : String)
  | err (msg : String)
deriving DecidableEq

/-- The initiating caller of the busy-wait variant: on success the token is
stored and returned, on failure `isAuthenticating` is cleared in the catch
block and the error is thrown to this caller. -/
def busyInitiate (s : BusyAuthState) (outcome : AuthOutcome) :
    BusyAuthState × Except String (Option String) :=
  match outcome with
  | .ok t => (⟨some t, false⟩, .ok (some t))
  | .err e => ({ s with isAuthenticating := false }, .error e)

/-- A concurrent caller of the busy-wait variant that found
`authData.isAuthenticating` true: it loops until the flag clears and then
executes `return authData` — it always returns the shared credential state
and never rethrows the attempt's error. -/
def busyWaiterResult (finalState : BusyAuthState) :
    Except String (Option String) :=
  .ok finalState.token

/-- Entry state of the busy-wait `authenticate` variant: the
`isAuthenticating` flag and the number of upstream authentication HTTP
calls started so far. -/
structure BusyFlight where
  isAuthenticating : Bool
  upstreamCalls : Nat
deriving DecidableEq

/-- Which path a caller of the busy-wait `authenticate` took: the initiator
performs the upstream round-trip; a waiter joins the outstanding attempt by
polling the flag. -/
inductive BusyRole
  | initiator
  | waiter
deriving DecidableEq

/-- One call's synchronous prefix of the busy-wait `authenticate`
(lines 503-512): the `if (authData.isAuthenticating)` check sends the
caller into the waiter loop without touching the state; otherwise
`authData.isAuthenticating = true` is set and the upstream HTTP call is
started.  That prefix contains no suspension point, so on the
single-threaded event loop it is one atomic step. -/
def busyInvoke (s : BusyFlight) : BusyFlight × BusyRole :=
  if s.isAuthenticating then (s, .waiter)
  else ({ isAuthenticating := true, upstreamCalls := s.upstreamCalls + 1 },
    .initiator)

/-- `n` further callers invoking the busy-wait `authenticate`, one
event-loop step each, with the outstanding attempt not settling in
between.  Returns the final state and each caller's role. -/
def busyInvokeMany (s : BusyFlight) : Nat → BusyFlight × List BusyRole
  | 0 => (s, [])
  | n + 1 =>
      let (s1, r) := busyInvoke s
      let (s2, rs) := busyInvokeMany s1 n
      (s2, r :: rs)

/-! ## Claim C1: playback-method priority order -/

/-- C1 counterexample: the claim requires that remux is selected only when
quality is `auto` (and otherwise, failing direct-play, the result is
transcode).  For quality `low` with a descriptor that supports
direct-stream, quality is not `auto`, so the claim demands a transcode
result — but the code selects remux, because the `else if
(mediaSource.SupportsDirectStream)` branch never re-checks the quality. -/
theorem c1_counterexample :
    ("low" : String) ≠ "auto" ∧
    (negotiate "http://jf" "item1" ⟨"user1", "token1"⟩
        { defaultQuery with quality := "low" }
        ⟨false, true, true, none, "ms1"⟩).method = PlayMethod.remux ∧
    PlayMethod.remux ≠ PlayMethod.transcode := by
  refine ⟨by decide, rfl, by decide⟩

/-- C1 (amended): the method decision in strict priority order as the code
makes it — direct-play exactly when the descriptor supports direct-play and
quality is `auto`, with empty reason list; otherwise remux whenever the
descriptor supports direct-stream (regardless of quality), with reason list
exactly `["Container remux"]`; otherwise transcode with upstream-reported
reasons, defaulting to `["Full transcode required"]` when upstream reports
none. -/
theorem c1_method_priority (server itemId : String) (auth : AuthData)
    (q : StreamQuery) (ms : MediaSource) :
    ((ms.supportsDirectPlay = true ∧ q.quality = "auto") →
      (negotiate server itemId auth q ms).method = PlayMethod.directPlay ∧
      (negotiate server itemId auth q ms).transcodeReasons = []) ∧
    (¬ (ms.supportsDirectPlay = true ∧ q.quality = "auto") →
      ms.supportsDirectStream = true →
      (negotiate server itemId auth q ms).method = PlayMethod.remux ∧
      (negotiate server itemId auth q ms).transcodeReasons =
        ["Container remux"]) ∧
    (¬ (ms.supportsDirectPlay = true ∧ q.quality = "auto") →
      ms.supportsDirectStream = false →
      (negotiate server itemId auth q ms).method = PlayMethod.transcode ∧
      (negotiate server itemId auth q ms).transcodeReasons =
        ms.transcodeReasonsInfo.getD ["Full transcode required"]) := by
  refine ⟨fun h => ?_, fun h hds => ?_, fun h hds => ?_⟩
  · unfold negotiate
    rw [if_pos h]
    exact ⟨rfl, rfl⟩
  · unfold negotiate
    rw [if_neg h, if_pos hds]
    exact ⟨rfl, rfl⟩
  · unfold negotiate
    rw [if_neg h, if_neg (by simp [hds])]
    exact ⟨rfl, rfl⟩

/-- C1 witness: the amended remux case at a concrete input — a descriptor
without direct-play but with direct-stream support, quality `low`. -/
theorem c1_method_priority_witness :
    (negotiate "http://jf" "item1" ⟨"user1", "token1"⟩
        { defaultQuery with quality := "low" }
        ⟨false, true, true, none, "ms1"⟩).method = PlayMethod.remux ∧
    (negotiate "http://jf" "item1" ⟨"user1", "token1"⟩
        { defaultQuery with quality := "low" }
        ⟨false, true, true, none, "ms1"⟩).transcodeReasons =
      ["Container remux"] :=
  (c1_method_priority "http://jf" "item1" ⟨"user1", "token1"⟩
      { defaultQuery with quality := "low" }
      ⟨false, true, true, none, "ms1"⟩).2.1 (by decide) rfl

/-! ## Claim C2: fixed presets for the low/medium/high tiers -/

/-- C2: for quality `low`, `medium` or `high`, whatever transcode parameter
object negotiation produces carries exactly the fixed preset for that tier
(low → 720/480/1000000, medium → 1280/720/2500000, high →
1920/1080/8000000), for every descriptor and regardless of the
caller-supplied maxWidth, maxHeight and videoBitrate. -/
theorem c2_quality_presets (server itemId : String) (auth : AuthData)
    (q : StreamQuery) (ms : MediaSource)
    (hq : q.quality = "low" ∨ q.quality = "medium" ∨ q.quality = "high") :
    ∀ ps ∈ (negotiate server itemId auth q ms).transcodeParams,
      (ps.lookup "MaxWidth", ps.lookup "MaxHeight",
        ps.lookup "VideoBitrate") =
      (if q.quality = "low" then (some "720", some "480", some "1000000")
       else if q.quality = "medium" then
         (some "1280", some "720", some "2500000")
       else (some "1920", some "1080", some "8000000")) := by
  intro ps hps
  have hne : ¬ (ms.supportsDirectPlay = true ∧ q.quality = "auto") := by
    rcases hq with h | h | h <;> simp [h]
  rw [negotiate] at hps
  rw [if_neg hne] at hps
  by_cases hds : ms.supportsDirectStream = true
  · rw [if_pos hds] at hps
    simp at hps
  · rw [if_neg hds] at hps
    simp only [Option.mem_def, Option.some.injEq] at hps
    subst hps
    rcases hq with h | h | h <;>
      simp [presetFor, h, baseParams, List.lookup]

/-- C2 witness: quality `low` with caller-supplied 9999/9999/123 still
yields the 720/480/1000000 preset. -/
theorem c2_quality_presets_witness :
    (((negotiate "http://jf" "item1" ⟨"user1", "token1"⟩
          { defaultQuery with
              quality := "low", maxWidth := "9999", maxHeight := "9999",
              videoBitrate := "123" }
          ⟨true, false, true, none, "ms1"⟩).transcodeParams.getD []).lookup
        "MaxWidth",
      ((negotiate "http://jf" "item1" ⟨"user1", "token1"⟩
          { defaultQuery with
              quality := "low", maxWidth := "9999", maxHeight := "9999",
              videoBitrate := "123" }
          ⟨true, false, true, none, "ms1"⟩).transcodeParams.getD []).lookup
        "MaxHeight",
      ((negotiate "http://jf" "item1" ⟨"user1", "token1"⟩
          { defaultQuery with
              quality := "low", maxWidth := "9999", maxHeight := "9999",
              videoBitrate := "123" }
          ⟨true, false, true, none, "ms1"⟩).transcodeParams.getD []).lookup
        "VideoBitrate") =
    (some "720", some "480", some "1000000") :=
  c2_quality_presets "http://jf" "item1" ⟨"user1", "token1"⟩
    { defaultQuery with
        quality := "low", maxWidth := "9999", maxHeight := "9999",
        videoBitrate := "123" }
    ⟨true, false, true, none, "ms1"⟩ (Or.inl rfl) _ rfl

/-! ## Claim C7: URL parameter sets and the play-session id -/

/-- C7 counterexample: the upstream play-session id appears in neither
constructed URL.  At a concrete remux negotiation with play-session id
`PS-12345`, no query parameter of `directUrl` or `hlsUrl` has that value,
so the URLs are not tagged with (and do not contain) the play-session id. -/
theorem c7_counterexample :
    ¬ ((∃ kv ∈ (buildMetadataResponse "http://jf" "item1"
          ⟨"user1", "token1"⟩ defaultQuery ⟨false, true, true, none, "ms1"⟩
          "PS-12345").directUrl.params, kv.2 = "PS-12345") ∧
       (∃ kv ∈ (buildMetadataResponse "http://jf" "item1"
          ⟨"user1", "token1"⟩ defaultQuery ⟨false, true, true, none, "ms1"⟩
          "PS-12345").hlsUrl.params, kv.2 = "PS-12345")) := by
  decide

/-- C7 (amended): in every branch the HLS manifest URL and the
progressive/direct URL are built from the same parameter set, and the
negotiated upstream play-session id and media-source id are returned in the
metadata response's `playbackInfo.playSessionId` and `mediaSource.id`
fields rather than being embedded in the URLs. -/
theorem c7_same_params_and_session_field (server itemId : String)
    (auth : AuthData) (q : StreamQuery) (ms : MediaSource) (psid : String) :
    (negotiate server itemId auth q ms).directUrl.params =
      (negotiate server itemId auth q ms).hlsUrl.params ∧
    (buildMetadataResponse server itemId auth q ms psid).playSessionId =
      psid ∧
    (buildMetadataResponse server itemId auth q ms psid).mediaSourceId =
      ms.id := by
  refine ⟨?_, rfl, rfl⟩
  unfold negotiate
  split
  · rfl
  · split
    · rfl
    · rfl

/-! ## Claim C9: unrecognized quality values -/

/-- C9 counterexample: for a descriptor that supports direct-play, an
unrecognized quality (`weird`) does not behave as `auto`: `auto` selects
direct-play while `weird` falls through to the direct-stream branch,
producing a different method and different URLs. -/
theorem c9_counterexample :
    ("weird" ∉ (["auto", "low", "medium", "high"] : List String)) ∧
    negotiate "http://jf" "item1" ⟨"user1", "token1"⟩
        { defaultQuery with quality := "weird" }
        ⟨true, true, true, none, "ms1"⟩ ≠
      negotiate "http://jf" "item1" ⟨"user1", "token1"⟩ defaultQuery
        ⟨true, true, true, none, "ms1"⟩ := by
  constructor
  · decide
  · intro he
    have hm := congrArg NegotiationResult.method he
    rw [show (negotiate "http://jf" "item1" ⟨"user1", "token1"⟩
        { defaultQuery with quality := "weird" }
        ⟨true, true, true, none, "ms1"⟩).method = PlayMethod.remux from rfl,
      show (negotiate "http://jf" "item1" ⟨"user1", "token1"⟩ defaultQuery
        ⟨true, true, true, none, "ms1"⟩).method = PlayMethod.directPlay
        from rfl] at hm
    exact PlayMethod.noConfusion hm

/-- C9 (amended): an unrecognized quality value behaves exactly as `auto`
whenever the descriptor does not support direct-play (the method decision
and the transcode preset switch then coincide); when the descriptor does
support direct-play, an unrecognized quality instead behaves as a non-auto
tier and direct-play is not selected. -/
theorem c9_unrecognized_quality (server itemId : String) (auth : AuthData)
    (q : StreamQuery) (ms : MediaSource)
    (hq : q.quality ∉ (["auto", "low", "medium", "high"] : List String))
    (hdp : ms.supportsDirectPlay = false) :
    negotiate server itemId auth q ms =
      negotiate server itemId auth { q with quality := "auto" } ms := by
  simp only [List.mem_cons, List.not_mem_nil, or_false, not_or] at hq
  obtain ⟨hna, hnl, hnm, hnh⟩ := hq
  have h1 : ¬ (ms.supportsDirectPlay = true ∧ q.quality = "auto") := by
    simp [hdp]
  have h2 : ¬ (ms.supportsDirectPlay = true ∧
      (StreamQuery.quality { q with quality := "auto" }) = "auto") := by
    simp [hdp]
  unfold negotiate
  rw [if_neg h1, if_neg h2]
  by_cases hds : ms.supportsDirectStream = true
  · rw [if_pos hds, if_pos hds]
  · rw [if_neg hds, if_neg hds]
    have hp : presetFor q.quality q.maxWidth q.maxHeight q.videoBitrate =
        (q.maxWidth, q.maxHeight, q.videoBitrate) := by
      simp [presetFor, hnl, hnm, hnh]
    rw [hp]
    rfl

/-- C9 witness: with quality `ultra` and a descriptor without direct-play
support, negotiation gives exactly the `auto` result. -/
theorem c9_unrecognized_quality_witness :
    negotiate "http://jf" "item1" ⟨"user1", "token1"⟩
        { defaultQuery with quality := "ultra" }
        ⟨false, true, true, none, "ms1"⟩ =
      negotiate "http://jf" "item1" ⟨"user1", "token1"⟩ defaultQuery
        ⟨false, true, true, none, "ms1"⟩ :=
  c9_unrecognized_quality "http://jf" "item1" ⟨"user1", "token1"⟩
    { defaultQuery with quality := "ultra" }
    ⟨false, true, true, none, "ms1"⟩ (by decide) rfl

/-! ## Claim C10: the shared token is embedded in client-visible URLs -/

/-- Helper: looking up `api_key` in any parameter list that starts with
`baseParams` yields the shared token. -/
theorem lookup_apiKey_baseParams (auth : AuthData)
    (rest : List (String × String)) :
    (baseParams auth ++ rest).lookup "api_key" = some auth.token := by
  simp [baseParams, List.lookup]

/-- Helper: in every negotiation branch the direct URL's `api_key`
parameter is the shared token. -/
theorem negotiate_lookup_apiKey (server itemId : String) (auth : AuthData)
    (q : StreamQuery) (ms : MediaSource) :
    (negotiate server itemId auth q ms).directUrl.params.lookup "api_key" =
      some auth.token := by
  unfold negotiate
  split
  · exact lookup_apiKey_baseParams auth _
  · split
    · exact lookup_apiKey_baseParams auth _
    · exact lookup_apiKey_baseParams auth _

/-- C10: the shared upstream access token is embedded as the `api_key`
query parameter of both returned URLs in every method branch, and verbatim
in the subtitle fallback download URL; consequently two negotiations that
differ only in the credential token produce different client-visible
results. -/
theorem c10_token_embedding (server itemId : String) (auth : AuthData)
    (q : StreamQuery) (ms : MediaSource) (idx codec : String) :
    ("api_key", auth.token) ∈
      (negotiate server itemId auth q ms).directUrl.params ∧
    ("api_key", auth.token) ∈
      (negotiate server itemId auth q ms).hlsUrl.params ∧
    subtitleDownloadUrl server itemId ms.id auth ⟨idx, codec, none⟩ =
      server ++ "/Videos/" ++ itemId ++ "/" ++ ms.id ++ "/Subtitles/" ++
        idx ++ "/Stream." ++ codec ++ "?api_key=" ++ auth.token ∧
    (∀ t2 : String, t2 ≠ auth.token →
      negotiate server itemId ⟨auth.userId, t2⟩ q ms ≠
        negotiate server itemId auth q ms) := by
  refine ⟨?_, ?_, rfl, ?_⟩
  · unfold negotiate
    split
    · simp [baseParams]
    · split
      · simp [baseParams]
      · simp [baseParams]
  · unfold negotiate
    split
    · simp [baseParams]
    · split
      · simp [baseParams]
      · simp [baseParams]
  · intro t2 hne he
    have h1 := negotiate_lookup_apiKey server itemId ⟨auth.userId, t2⟩ q ms
    have h2 := negotiate_lookup_apiKey server itemId auth q ms
    rw [he, h2] at h1
    exact hne (Option.some.inj h1).symm

/-- C10 witness: two concrete negotiations differing only in the token give
different results. -/
theorem c10_token_embedding_witness :
    negotiate "http://jf" "item1" ⟨"user1", "tokenB"⟩ defaultQuery
        ⟨false, true, true, none, "ms1"⟩ ≠
      negotiate "http://jf" "item1" ⟨"user1", "tokenA"⟩ defaultQuery
        ⟨false, true, true, none, "ms1"⟩ :=
  (c10_token_embedding "http://jf" "item1" ⟨"user1", "tokenA"⟩ defaultQuery
    ⟨false, true, true, none, "ms1"⟩ "1" "srt").2.2.2 "tokenB" (by decide)

/-! ## Claim C3: byte counters and session removal in the direct proxy -/

/-- Helper: after `Map.set`, `Map.has` with the same key is true. -/
theorem mapHas_mapSet (m : StreamTable) (k : String) (v : StreamInfo) :
    mapHas (mapSet m k v) k = true := by
  unfold mapHas mapSet
  by_cases h : m.any (fun e => e.1 == k) = true
  · rw [if_pos h]
    rw [List.any_eq_true] at h ⊢
    obtain ⟨e, he, hek⟩ := h
    refine ⟨(k, v), ?_, by simp⟩
    rw [List.mem_map]
    exact ⟨e, he, by rw [if_pos hek]⟩
  · rw [if_neg h]
    rw [List.any_eq_true]
    exact ⟨(k, v), List.mem_append_right _ (List.mem_singleton_self _),
      by simp⟩

/-- Helper: after `Map.delete`, `Map.has` with the same key is false. -/
theorem mapHas_mapDelete (m : StreamTable) (k : String) :
    mapHas (mapDelete m k) k = false := by
  unfold mapHas mapDelete
  simp [List.any_eq_true, List.mem_filter]

/-- Helper: the final stats of one direct-proxy run. -/
theorem runDirectProxy_fst (s : ServerStats) (sid : String)
    (info : StreamInfo) (chunks : List Nat) :
    (runDirectProxy s sid info chunks).1 =
      { streamCount := s.streamCount + 1
        activeStreams := mapDelete (mapSet s.activeStreams sid info) sid
        totalBandwidth := s.totalBandwidth } := by
  simp [runDirectProxy, startDirectStream, pipeChunks, onRequestClose,
    mapHas_mapSet]

/-- C3 counterexample: a direct-proxy run that receives two chunks of 100
and 200 bytes from upstream leaves the global bandwidth counter at its
initial value 0, not at the 300-byte chunk sum the claim requires — the
`format=direct` branch pipes the body without any byte accounting (the
session record does not even carry a byte counter field). -/
theorem c3_counterexample :
    (runDirectProxy ⟨0, [], 0⟩ "stream-1"
        ⟨"item1", "Movie", 1000, "auto", 5000000, "UA", "127.0.0.1", true,
          []⟩
        [100, 200]).1.totalBandwidth ≠ ([100, 200] : List Nat).sum := by
  rw [runDirectProxy_fst]
  decide

/-- C3 (amended): the direct proxy forwards every upstream chunk to the
client in order but performs no byte accounting — the global bandwidth
counter is unchanged by a complete run — while the session is registered
(stream counter incremented) and, after the client connection closes, the
session record no longer appears in the active-streams table. -/
theorem c3_no_byte_accounting (s : ServerStats) (sid : String)
    (info : StreamInfo) (chunks : List Nat) :
    (runDirectProxy s sid info chunks).1.totalBandwidth =
      s.totalBandwidth ∧
    (runDirectProxy s sid info chunks).1.streamCount = s.streamCount + 1 ∧
    mapHas (runDirectProxy s sid info chunks).1.activeStreams sid =
      false ∧
    (runDirectProxy s sid info chunks).2 = chunks := by
  rw [runDirectProxy_fst]
  exact ⟨rfl, rfl, mapHas_mapDelete _ sid, rfl⟩

/-! ## Claim C6: upstream request options and relayed headers -/

/-- C6 counterexample: with a caller Range header `bytes=0-100` present,
the upstream GET of the `format=direct` branch neither carries that header
(its header list is empty) nor is issued without a timeout (it uses a fixed
30000 ms timeout). -/
theorem c6_counterexample :
    ¬ ((("Range", "bytes=0-100") ∈
          (buildDirectUpstreamGet "/Videos/item1/stream"
            (some "bytes=0-100")).headers) ∧
       (buildDirectUpstreamGet "/Videos/item1/stream"
          (some "bytes=0-100")).timeout = none) := by
  decide

/-- C6 (amended): the upstream GET of the `format=direct` branch is issued
with no request headers at all (the caller's Range header is not forwarded)
and a fixed 30-second timeout; the response always adds
`Accept-Ranges: bytes` and permissive CORS headers, and relays upstream's
Content-Type (defaulting to `video/mp4`) and Content-Length. -/
theorem c6_upstream_request_and_headers (u : String)
    (range uct ucl : Option String) :
    (buildDirectUpstreamGet u range).headers = [] ∧
    (buildDirectUpstreamGet u range).timeout = some 30000 ∧
    (buildDirectUpstreamGet u range).responseType = "stream" ∧
    (mkDirectRespHeaders uct ucl).acceptRanges = "bytes" ∧
    (mkDirectRespHeaders uct ucl).accessControlAllowOrigin = "*" ∧
    (mkDirectRespHeaders uct ucl).accessControlAllowHeaders = "Range" ∧
    (mkDirectRespHeaders uct ucl).contentType = uct.getD "video/mp4" ∧
    (mkDirectRespHeaders uct ucl).contentLength = ucl :=
  ⟨rfl, rfl, rfl, rfl, rfl, rfl, rfl, rfl⟩

/-! ## Claim C8: the stale-session sweep -/

/-- C8: the sweep keeps exactly the records not older than the threshold
(in their original order), is a no-op when no record is stale, empties the
table when every record is stale, and an immediate second invocation is a
no-op (idempotence). -/
theorem c8_sweep_exact (now maxAge : Int) (t : StreamTable) :
    (∀ e : String × StreamInfo,
        e ∈ sweepStale now maxAge t ↔
          e ∈ t ∧ isStale now maxAge e.2 = false) ∧
    ((∀ e ∈ t, isStale now maxAge e.2 = false) →
      sweepStale now maxAge t = t) ∧
    ((∀ e ∈ t, isStale now maxAge e.2 = true) →
      sweepStale now maxAge t = []) ∧
    sweepStale now maxAge (sweepStale now maxAge t) =
      sweepStale now maxAge t := by
  refine ⟨?_, ?_, ?_, ?_⟩
  · intro e
    simp [sweepStale, List.mem_filter]
  · intro h
    rw [sweepStale, List.filter_eq_self]
    intro e he
    simp [h e he]
  · intro h
    rw [sweepStale, List.filter_eq_nil_iff]
    intro e he
    simp [h e he]
  · unfold sweepStale
    rw [List.filter_filter]
    congr 1
    funext e
    exact Bool.and_self _

/-! ## Claim C5: progress-report validation and tick conversion -/

/-- C5: the progress route answers 400 exactly when the supplied position
is not a non-negative number, and then forwards nothing upstream; every
valid position `p` is forwarded as `round(p * 10000000)` ticks (120.5
seconds gives 1205000000 ticks); and an upstream error still yields a
status-200 `success: false` body. -/
theorem c5_progress_validation (position : Option ℚ) (upstreamOk : Bool) :
    ((reportProgress position upstreamOk).status = 400 ↔
      (position = none ∨ ∃ p, position = some p ∧ p < 0)) ∧
    ((reportProgress position upstreamOk).status = 400 →
      (reportProgress position upstreamOk).upstreamTicks = none) ∧
    (∀ p : ℚ, position = some p → 0 ≤ p →
      (reportProgress position upstreamOk).upstreamTicks =
        some (jsRound (p * 10000000))) ∧
    (∀ p : ℚ, position = some p → 0 ≤ p → upstreamOk = false →
      (reportProgress position upstreamOk).status = 200 ∧
      (reportProgress position upstreamOk).success = some false) ∧
    reportProgress (some (120.5 : ℚ)) true =
      ⟨200, some 1205000000, some true⟩ := by
  refine ⟨?_, ?_, ?_, ?_, ?_⟩
  · cases position with
    | none => simp [reportProgress]
    | some p =>
        by_cases hp : p < 0
        · simp [reportProgress, hp]
        · cases upstreamOk <;> simp [reportProgress, hp]
  · cases position with
    | none => intro _; simp [reportProgress]
    | some p =>
        by_cases hp : p < 0
        · intro _; simp [reportProgress, hp]
        · cases upstreamOk <;> simp [reportProgress, hp]
  · rintro p rfl h0
    have hp : ¬ p < 0 := not_lt.mpr h0
    cases upstreamOk <;> simp [reportProgress, hp]
  · rintro p rfl h0 rfl
    have hp : ¬ p < 0 := not_lt.mpr h0
    simp [reportProgress, hp]
  · have hp : ¬ ((120.5 : ℚ) < 0) := by norm_num
    have hj : jsRound ((120.5 : ℚ) * 10000000) = 1205000000 := by
      unfold jsRound
      rw [show (120.5 : ℚ) * 10000000 + 1 / 2 =
          ((1205000000 : ℤ) : ℚ) + 1 / 2 by norm_num]
      rw [Int.floor_int_add]
      norm_num
    simp [reportProgress, hp, hj]

/-- C5 witness: position -1 is rejected with status 400 and no upstream
forwarding, by the main theorem applied at that concrete input. -/
theorem c5_progress_validation_witness :
    (reportProgress (some (-1 : ℚ)) true).status = 400 ∧
    (reportProgress (some (-1 : ℚ)) true).upstreamTicks = none := by
  have h := c5_progress_validation (some (-1 : ℚ)) true
  have h400 := h.1.mpr (Or.inr ⟨-1, rfl, by norm_num⟩)
  exact ⟨h400, h.2.1 h400⟩

/-! ## Claim C4: single-flight authentication -/

/-- Helper: while an attempt is outstanding, any number of further
invocations of the promise-based `authenticate` leave the state unchanged
and hand every caller that same outstanding promise. -/
theorem authInvokeMany_outstanding (s : AuthFlight) (p : Nat)
    (h : s.authPromise = some p) (n : Nat) :
    authInvokeMany s n = (s, List.replicate n p) := by
  have hstep : authInvoke s = (s, p) := by
    unfold authInvoke
    rw [h]
  induction n with
  | zero => rfl
  | succ n ih =>
      simp [authInvokeMany, hstep, ih, List.replicate_succ]

/-- Helper: while the busy-wait variant's flag is set, any number of
further invocations leave the state unchanged — in particular they start
no upstream call — and every caller becomes a waiter on the outstanding
attempt. -/
theorem busyInvokeMany_outstanding (s : BusyFlight)
    (h : s.isAuthenticating = true) (n : Nat) :
    busyInvokeMany s n = (s, List.replicate n BusyRole.waiter) := by
  have hstep : busyInvoke s = (s, BusyRole.waiter) := by
    unfold busyInvoke
    rw [if_pos h]
  induction n with
  | zero => rfl
  | succ n ih =>
      simp [busyInvokeMany, hstep, ih, List.replicate_succ]

/-- C4 counterexample: in the busy-wait `authenticate` variant, when the
single outstanding attempt fails, the initiating caller receives the error
but a concurrent waiter receives the (stale) shared credential state — not
that attempt's result — refuting the claim that every concurrent caller
receives the attempt's error on failure. -/
theorem c4_counterexample :
    busyWaiterResult
        (busyInitiate ⟨none, true⟩ (AuthOutcome.err "auth failed")).1 ≠
      Except.error "auth failed" ∧
    (busyInitiate ⟨none, true⟩ (AuthOutcome.err "auth failed")).2 =
      Except.error "auth failed" :=
  ⟨fun hcontra => Except.noConfusion hcontra, rfl⟩

/-- C4 (amended): one idle-state invocation followed by any number of
concurrent invocations starts exactly one upstream authentication call in
both variants.  In the promise-based variant every concurrent caller
receives the same outstanding promise (hence that single attempt's result —
credential or error — when it settles).  In the busy-wait variant every
concurrent caller becomes a waiter on the single attempt and receives the
shared credential state: the new token after a successful attempt, but the
old state (not the error) after a failed one. -/
theorem c4_single_flight (s : AuthFlight) (n : Nat)
    (h : s.authPromise = none) :
    (authInvokeMany (authInvoke s).1 n).1.upstreamCalls =
      s.upstreamCalls + 1 ∧
    (authInvokeMany (authInvoke s).1 n).2 =
      List.replicate n (authInvoke s).2 ∧
    (∀ bf : BusyFlight, ∀ m : Nat, bf.isAuthenticating = false →
      (busyInvokeMany (busyInvoke bf).1 m).1.upstreamCalls =
        bf.upstreamCalls + 1 ∧
      (busyInvokeMany (busyInvoke bf).1 m).2 =
        List.replicate m BusyRole.waiter) ∧
    (∀ bs : BusyAuthState, ∀ t : String,
      busyWaiterResult (busyInitiate bs (AuthOutcome.ok t)).1 =
        Except.ok (some t)) ∧
    (∀ bs : BusyAuthState, ∀ e : String,
      busyWaiterResult (busyInitiate bs (AuthOutcome.err e)).1 =
        Except.ok bs.token) := by
  have hstep : authInvoke s =
      ({ authPromise := some s.nextId
         upstreamCalls := s.upstreamCalls + 1
         nextId := s.nextId + 1 }, s.nextId) := by
    unfold authInvoke
    rw [h]
  rw [hstep, authInvokeMany_outstanding _ s.nextId rfl n]
  refine ⟨rfl, rfl, fun bf m hflag => ?_, fun bs t => rfl, fun bs e => rfl⟩
  have hb : busyInvoke bf =
      ({ isAuthenticating := true, upstreamCalls := bf.upstreamCalls + 1 },
        BusyRole.initiator) := by
    unfold busyInvoke
    rw [if_neg (by simp [hflag])]
  rw [hb, busyInvokeMany_outstanding _ rfl m]
  exact ⟨rfl, rfl⟩

/-- C4 witness: from the idle state, one invocation plus three concurrent
invocations make exactly one upstream call in each variant — all three
concurrent callers share the promise in the promise-based variant and all
three are waiters in the busy-wait variant. -/
theorem c4_single_flight_witness :
    (authInvokeMany (authInvoke ⟨none, 0, 0⟩).1 3).1.upstreamCalls = 1 ∧
    (authInvokeMany (authInvoke ⟨none, 0, 0⟩).1 3).2 =
      List.replicate 3 (authInvoke ⟨none, 0, 0⟩).2 ∧
    (busyInvokeMany (busyInvoke ⟨false, 0⟩).1 3).1.upstreamCalls = 1 ∧
    (busyInvokeMany (busyInvoke ⟨false, 0⟩).1 3).2 =
      List.replicate 3 BusyRole.waiter := by
  have h := c4_single_flight ⟨none, 0, 0⟩ 3 rfl
  have hb := h.2.2.1 ⟨false, 0⟩ 3 rfl
  exact ⟨h.1, h.2.1, hb.1, hb.2⟩

end JellyfinResonite
